import Mathlib

/-!
Verification of the keyed event distribution and consumption engine of
kafka-partition-skew-example against its specification.

The embedding below translates the three command entry points:
  * cmd/producer/main.go        — skewed producer (hot-key policy)
  * the balanced producer       — sharded key policy (unnamed source part_001)
  * the consumer                — per-partition consumption loop (unnamed source part_000)

Randomness is modelled by passing the successive draws of the producer-local
random source explicitly; a call r.Intn(n) with n > 0 is modelled as d % n for
an arbitrary natural draw d, which realises exactly the contract that Intn
returns a uniform value in [0, n).  Machine integers that can only hold small
non-negative values in every reachable state (sequence counters, offsets,
amounts, timestamps) are modelled as Nat; values that the code can drive
negative or that Go division is performed on are modelled as Int with Go's
truncated division written explicitly.
-/

namespace KafkaSkew

/-- Character for decimal digit d (the code points written by fmt's %d verb). -/
def digitChar (d : Nat) : Char := Char.ofNat (48 + d)

/-- Models fmt.Sprintf("%06d", n): the six-character zero-padded decimal
rendering of n.  Faithful for every n < 10^6; each call site in the repository
passes a value of r.Intn(200000), which is below that bound. -/
def pad6 (n : Nat) : String :=
  String.mk [digitChar (n / 100000 % 10), digitChar (n / 10000 % 10),
    digitChar (n / 1000 % 10), digitChar (n / 100 % 10),
    digitChar (n / 10 % 10), digitChar (n % 10)]

/-- The fixed VIP hot key, cmd/producer/main.go line 86. -/
def vipID : String := "player-000001"

/-- Models fmt.Sprintf("player-%06d", n), the identifier space of both
producers (cmd/producer/main.go line 82, balanced producer line 84). -/
def fmtPlayer (n : Nat) : String := "player-" ++ pad6 n

/-- Skewed producer player selection, cmd/producer/main.go lines 81-87:
playerID := fmt.Sprintf("player-%06d", r.Intn(200000)); then the VIP override
if r.Intn(100) < skewPercent.  playerDraw and skewDraw are the two successive
draws of the random source. -/
def skewedPlayerID (skewPercent playerDraw skewDraw : Nat) : String :=
  if skewDraw % 100 < skewPercent then vipID
  else fmtPlayer (playerDraw % 200000)

/-- Skewed producer routing key, cmd/producer/main.go line 101: key := playerID. -/
def skewedKey (skewPercent playerDraw skewDraw : Nat) : String :=
  skewedPlayerID skewPercent playerDraw skewDraw

/-- Balanced producer player selection, balanced producer lines 81-85:
playerID := "player-000001"; overridden with a drawn identifier when
r.Intn(100) >= 95 (5% non-VIP). -/
def shardedPlayerID (vipDraw playerDraw : Nat) : String :=
  if 95 ≤ vipDraw % 100 then fmtPlayer (playerDraw % 200000)
  else vipID

/-- Go runtime panics reachable from the producer code paths. -/
inductive GoPanic
  | integerDivideByZero
  | nonPositiveTickerInterval
  | intnInvalidArgument
deriving DecidableEq, Repr

/-- Outcome of the producer startup sequence up to the point where the
generation goroutine is (or is not) spawned. -/
inductive StartOutcome
  | panicked (p : GoPanic)
  | generationTaskStarted
deriving DecidableEq, Repr

/-- Whether the startup sequence reached the go statement that spawns the
generation task. -/
def startedGeneration : StartOutcome → Bool
  | .panicked _ => false
  | .generationTaskStarted => true

/-- Nanoseconds in time.Second. -/
def nanosPerSecond : Int := 1000000000

/-- Models the ticker setup shared by both producers (cmd/producer/main.go
line 69, balanced producer line 69): time.NewTicker(time.Second /
time.Duration(rate)) followed by the go statement spawning the generation
loop.  Go integer division by zero panics; time.NewTicker panics when its
argument is not positive; Go's / on integers truncates toward zero
(Int.tdiv). -/
def tickerStart (rate : Int) : StartOutcome :=
  if rate = 0 then .panicked .integerDivideByZero
  else if Int.tdiv nanosPerSecond rate ≤ 0 then .panicked .nonPositiveTickerInterval
  else .generationTaskStarted

/-- Startup of the skewed producer (cmd/producer/main.go): the rate is used
only in the ticker setup; no validation precedes it. -/
def producerStartup (rate : Int) : StartOutcome := tickerStart rate

/-- Startup of the balanced producer: identical ticker setup; the shards
option is not consulted anywhere before the generation goroutine starts. -/
def balancedStartup (rate : Int) (_shards : Int) : StartOutcome := tickerStart rate

/-- The Go runtime terminates a panicking process with exit status 2. -/
def goPanicExitCode : Nat := 2

/-- Exit code of the process when startup aborts; none means startup
succeeded and the process keeps running. -/
def startupExit : StartOutcome → Option Nat
  | .panicked _ => some goPanicExitCode
  | .generationTaskStarted => none

/-- Models math/rand's r.Intn(n): panics when n <= 0, otherwise returns a
uniform value in [0, n) (realised as draw % n). -/
def goIntn (n : Int) (draw : Nat) : Except GoPanic Int :=
  if n ≤ 0 then .error .intnInvalidArgument
  else .ok ((draw : Int) % n)

/-- Balanced producer per-tick routing key, balanced producer lines 98-100:
shard := r.Intn(shards); key := fmt.Sprintf("%s#shard=%d", ev.PlayerID, shard).
The Intn call is the first use of shards and panics when shards <= 0. -/
def balancedTickKey (shards : Int) (vipDraw playerDraw shardDraw : Nat) :
    Except GoPanic String :=
  match goIntn shards shardDraw with
  | .error p => .error p
  | .ok s => .ok (shardedPlayerID vipDraw playerDraw ++ "#shard=" ++ toString s)

/-- gameEvent struct, cmd/producer/main.go lines 32-40.  ID, Amount and TS are
Go integers that only ever hold small non-negative values in reachable
states. -/
structure GameEvent where
  id : Nat
  playerID : String
  gameID : String
  eventType : String
  amount : Nat
  tableID : String
  ts : Nat
deriving DecidableEq, Repr

/-- The closed set of event types, cmd/producer/main.go line 94. -/
def eventTypes : List String := ["bet_placed", "hand_finished", "chips_added"]

/-- pick helper, cmd/producer/main.go lines 159-161: ss[r.Intn(len(ss))]. -/
def pick (ss : List String) (draw : Nat) : String :=
  ss.getD (draw % ss.length) ""

/-- The per-tick draws of the random source consumed while building one
event (cmd/producer/main.go lines 81-97). -/
structure Draws where
  playerDraw : Nat
  skewDraw : Nat
  gameDraw : Nat
  typeDraw : Nat
  amtDraw : Nat
  tableDraw : Nat
deriving Repr

/-- EventFactory: the gameEvent literal, cmd/producer/main.go lines 90-98.
i is the producer-local sequence counter, pid the already-selected playerID,
nowMs the wall clock in epoch milliseconds. -/
def buildEvent (i : Nat) (pid : String) (d : Draws) (nowMs : Nat) : GameEvent :=
  { id := i
    playerID := pid
    gameID := "game-" ++ toString (d.gameDraw % 50)
    eventType := pick eventTypes d.typeDraw
    amount := 10 + d.amtDraw % 200
    tableID := "table-" ++ toString (d.tableDraw % 100)
    ts := nowMs }

/-- Wire payload serialization, cmd/producer/main.go lines 102-103 (and the
identical format string of the balanced producer): the fmt.Sprintf JSON
template with the seven fields interpolated in order. -/
def eventJSON (ev : GameEvent) : String :=
  "\x7b\"id\":" ++ toString ev.id ++ ",\"player_id\":\"" ++ ev.playerID ++
  "\",\"game_id\":\"" ++ ev.gameID ++ "\",\"event_type\":\"" ++ ev.eventType ++
  "\",\"amount\":" ++ toString ev.amount ++ ",\"table_id\":\"" ++ ev.tableID ++
  "\",\"ts\":" ++ toString ev.ts ++ "\x7d"

/-- Field value of the wire contract (integers or strings). -/
inductive FieldVal
  | intVal (i : Nat)
  | strVal (s : String)
deriving DecidableEq, Repr

/-- Modelled from the spec: rendering of one named field of the wire
contract. -/
def renderFieldSpec : String × FieldVal → String
  | (n, .intVal i) => "\"" ++ n ++ "\":" ++ toString i
  | (n, .strVal s) => "\"" ++ n ++ "\":\"" ++ s ++ "\""

/-- Modelled from the spec: a flat structural record whose fields appear
exactly in list order — the spec-side description of the wire payload, to be
compared with eventJSON. -/
def renderFieldsSpec (fs : List (String × FieldVal)) : String :=
  "\x7b" ++ String.intercalate "," (fs.map renderFieldSpec) ++ "\x7d"

/-- The ordered field list id, player_id, game_id, event_type, amount,
table_id, ts demanded by the wire contract for a given event. -/
def wireFields (ev : GameEvent) : List (String × FieldVal) :=
  [("id", .intVal ev.id), ("player_id", .strVal ev.playerID),
   ("game_id", .strVal ev.gameID), ("event_type", .strVal ev.eventType),
   ("amount", .intVal ev.amount), ("table_id", .strVal ev.tableID),
   ("ts", .intVal ev.ts)]

/-- Result of the non-blocking select around asyncProducer.Input(). -/
inductive SendResult
  | accepted
  | dropped
deriving DecidableEq, Repr

/-- The transport's input channel: a buffer of (key, value) records bounded
by a capacity constant. -/
structure Chan where
  cap : Nat
  buf : List (String × String)
deriving DecidableEq, Repr

/-- PublishSink: the select with a default branch, cmd/producer/main.go lines
111-116 (balanced producer lines 115-120).  A buffered-channel send succeeds
exactly when the buffer is below capacity; the default branch fires otherwise
and the record is discarded with the channel untouched.  A single total
function: the call never blocks, never queues beyond capacity and never
retries. -/
def trySend (c : Chan) (m : String × String) : SendResult × Chan :=
  if c.buf.length < c.cap then (.accepted, ⟨c.cap, c.buf ++ [m]⟩)
  else (.dropped, c)

/-- The transport's concurrent send workers removing n records from the front
of the input channel between two ticks of the generation loop. -/
def chanDrain (c : Chan) (n : Nat) : Chan := ⟨c.cap, c.buf.drop n⟩

/-- State of the skewed generation loop: the transport channel, the sequence
counter i (cmd/producer/main.go line 77) and the history of records the
channel accepted. -/
structure ProdState where
  ch : Chan
  i : Nat
  accepted : List GameEvent
deriving Repr

/-- Environment of one tick: the random draws, the wall clock, and how many
buffered records the transport workers drained since the previous tick. -/
structure TickInput where
  d : Draws
  nowMs : Nat
  drained : Nat
deriving Repr

/-- The event built at a tick when the counter is i, cmd/producer/main.go
lines 81-98. -/
def tickEvent (sp i : Nat) (inp : TickInput) : GameEvent :=
  buildEvent i (skewedPlayerID sp inp.d.playerDraw inp.d.skewDraw) inp.d inp.nowMs

/-- Whether the tick's non-blocking send is accepted or dropped. -/
def sendOutcome (sp : Nat) (st : ProdState) (inp : TickInput) : SendResult :=
  (trySend (chanDrain st.ch inp.drained)
    ((tickEvent sp st.i inp).playerID, eventJSON (tickEvent sp st.i inp))).1

/-- One iteration of the skewed generation loop, cmd/producer/main.go lines
78-117: build the event from counter i, derive the key, try the non-blocking
send; i++ happens only in the accepted branch of the select. -/
def skewedTick (sp : Nat) (st : ProdState) (inp : TickInput) : ProdState :=
  match trySend (chanDrain st.ch inp.drained)
      ((tickEvent sp st.i inp).playerID, eventJSON (tickEvent sp st.i inp)) with
  | (.accepted, ch2) => ⟨ch2, st.i + 1, st.accepted ++ [tickEvent sp st.i inp]⟩
  | (.dropped, ch2) => ⟨ch2, st.i, st.accepted⟩

/-- The generation loop run over a finite schedule of ticks. -/
def runProducer (sp : Nat) (st : ProdState) : List TickInput → ProdState
  | [] => st
  | inp :: rest => runProducer sp (skewedTick sp st inp) rest

/-- Initial loop state: var i int64 (zero value), empty channel of the given
capacity, nothing accepted yet. -/
def initState (cap : Nat) : ProdState := ⟨⟨cap, []⟩, 0, []⟩

/-- A record of the claim stream of one assigned partition.  Kafka offsets
are non-negative int64 values. -/
structure KMsg where
  offset : Nat
  key : String
deriving DecidableEq, Repr

/-- Observable actions of the consumption loop, in program order. -/
inductive CAction
  | sleep (ms : Nat)
  | logMsg (partition : Nat) (offset : Nat) (key : String)
  | mark (offset : Nat)
deriving DecidableEq, Repr

/-- The body of ConsumeClaim for one message, consumer lines 53-67:
time.Sleep(h.work); the sampled log when msg.Offset%500 == 0; then
sess.MarkMessage(msg, ""). -/
def processMsg (workMs p : Nat) (m : KMsg) : List CAction :=
  [CAction.sleep workMs] ++
  (if m.offset % 500 = 0 then [CAction.logMsg p m.offset m.key] else []) ++
  [CAction.mark m.offset]

/-- ConsumeClaim, consumer lines 51-69: the range loop over claim.Messages()
processes the claim stream in delivery order, emitting each message's actions
consecutively. -/
def consumeClaim (workMs p : Nat) (msgs : List KMsg) : List CAction :=
  (msgs.map (processMsg workMs p)).flatten

/-- Offsets acknowledged (MarkMessage) along a trace, in trace order. -/
def markOffsets (tr : List CAction) : List Nat :=
  tr.filterMap fun a =>
    match a with
    | CAction.mark o => some o
    | _ => none

/-- Observability records (partition, offset, key) emitted along a trace. -/
def logRecords (tr : List CAction) : List (Nat × Nat × String) :=
  tr.filterMap fun a =>
    match a with
    | CAction.logMsg p o k => some (p, o, k)
    | _ => none

/-- The per-record trace begins with the simulated work and ends with the
acknowledgment of that record's offset. -/
def blockOk (workMs p : Nat) (m : KMsg) : Bool :=
  ((processMsg workMs p m).head? == some (CAction.sleep workMs)) &&
  ((processMsg workMs p m).getLast? == some (CAction.mark m.offset))

/-- The event the consumer's outer select wakes up on, consumer lines
110-124: either a value from the consumeErrors channel (a fatal error
surfaced by client.Consume) or a termination signal. -/
inductive WaitEvent
  | consumeFault (err : String)
  | shutdownSignal
deriving DecidableEq

/-- The value run returns for each wake-up, consumer lines 110-127: the
consume-error branch logs the error and falls through to return nil; the
signal branch closes the client and also returns nil. -/
def runConsumerResult : WaitEvent → Option String
  | WaitEvent.consumeFault _ => none
  | WaitEvent.shutdownSignal => none

/-- main, consumer lines 129-141: os.Exit(1) when run returns a non-nil
error, normal exit status 0 otherwise. -/
def consumerExitCode (we : WaitEvent) : Nat :=
  match runConsumerResult we with
  | none => 0
  | some _ => 1

/-! Helper lemmas about the identifier space. -/

/-- Distinct decimal digits render to distinct characters. -/
theorem digitChar_inj : ∀ a < 10, ∀ b < 10, digitChar a = digitChar b → a = b := by decide

/-- The VIP constant is the identifier the formatter produces for 1. -/
theorem vip_eq_fmt : vipID = fmtPlayer 1 := by decide

/-- Below 10^6, only 1 zero-pads to the digit string of 1. -/
theorem pad6_eq_one (n : Nat) (hn : n < 1000000) (h : pad6 n = pad6 1) : n = 1 := by
  have hd := congrArg String.data h
  simp only [pad6, String.data] at hd
  injection hd with h5 hd
  injection hd with h4 hd
  injection hd with h3 hd
  injection hd with h2 hd
  injection hd with h1 hd
  injection hd with h0 hd
  have e5 := digitChar_inj _ (Nat.mod_lt _ (by norm_num)) _ (Nat.mod_lt _ (by norm_num)) h5
  have e4 := digitChar_inj _ (Nat.mod_lt _ (by norm_num)) _ (Nat.mod_lt _ (by norm_num)) h4
  have e3 := digitChar_inj _ (Nat.mod_lt _ (by norm_num)) _ (Nat.mod_lt _ (by norm_num)) h3
  have e2 := digitChar_inj _ (Nat.mod_lt _ (by norm_num)) _ (Nat.mod_lt _ (by norm_num)) h2
  have e1 := digitChar_inj _ (Nat.mod_lt _ (by norm_num)) _ (Nat.mod_lt _ (by norm_num)) h1
  have e0 := digitChar_inj _ (Nat.mod_lt _ (by norm_num)) _ (Nat.mod_lt _ (by norm_num)) h0
  omega

/-- The uniform identifier draw hits the VIP identifier exactly at 1: the
identifier space of both producers contains the hot key itself. -/
theorem fmtPlayer_eq_vip_iff (n : Nat) (hn : n < 1000000) : fmtPlayer n = vipID ↔ n = 1 := by
  constructor
  · intro h
    rw [vip_eq_fmt] at h
    have hd := congrArg String.data h
    simp only [fmtPlayer, String.data_append] at hd
    exact pad6_eq_one n hn (String.ext (List.append_cancel_left hd))
  · intro h
    subst h
    exact vip_eq_fmt.symm

/-- C1 counterexample: with skewPercent = 0 the skew draw is never below
skewPercent, yet when the uniform identifier draw is 1 the emitted routing key
is the VIP identifier itself, so the VIP key is NOT emitted exactly when the
skew draw is below skewPercent, and the otherwise-branch does not always use a
non-VIP identifier. -/
theorem C1_counterexample : skewedKey 0 1 7 = vipID ∧ ¬(7 % 100 < 0) :=
  ⟨by decide, by decide⟩

/-- C1 (amended): the Skewed policy emits the VIP identifier as routing key
exactly when the skew draw is below skewPercent OR the uniform draw from the
identifier space [0, 200000) is 1 (the VIP identifier belongs to that space);
otherwise the drawn identifier is used directly.  skewPercent = 100 makes
every routing key the VIP identifier; skewPercent = 0 never takes the VIP
override branch, the key being the uniformly drawn identifier. -/
theorem C1_amended (sp pd sd : Nat) :
    (skewedKey sp pd sd = vipID ↔ (sd % 100 < sp ∨ pd % 200000 = 1))
    ∧ skewedKey 100 pd sd = vipID
    ∧ skewedKey 0 pd sd = fmtPlayer (pd % 200000) := by
  refine ⟨?_, ?_, ?_⟩
  · unfold skewedKey skewedPlayerID
    by_cases h : sd % 100 < sp
    · simp [h]
    · simp only [h, if_false, if_neg h]
      rw [fmtPlayer_eq_vip_iff _ (by omega)]
      simp [h]
  · unfold skewedKey skewedPlayerID
    simp [Nat.mod_lt sd (by norm_num : 0 < 100)]
  · unfold skewedKey skewedPlayerID
    simp

/-- C2 counterexample: when the VIP-weight draw is 95 the non-VIP branch is
taken, yet the uniform identifier draw 1 yields the VIP identifier, so the
policy does not select a non-VIP identifier in the otherwise case; the
resulting routing key is the sharded VIP key. -/
theorem C2_counterexample : shardedPlayerID 95 1 = vipID ∧ ¬(95 % 100 < 95)
    ∧ balancedTickKey 16 95 1 0 = Except.ok "player-000001#shard=0" :=
  ⟨by decide, by decide, rfl⟩

/-- C2 (amended): for shardCount > 0 the Sharded policy always emits
playerID ++ "#shard=" ++ shardIndex with the shard index uniform in
[0, shardCount); the selected playerID is the VIP identifier exactly when the
weight draw is below the fixed weight 95 OR the uniform identifier draw from
[0, 200000) is 1. -/
theorem C2_amended (shards : Int) (h : 0 < shards) (v p s : Nat) :
    balancedTickKey shards v p s =
      Except.ok (shardedPlayerID v p ++ "#shard=" ++ toString ((s : Int) % shards))
    ∧ 0 ≤ (s : Int) % shards ∧ (s : Int) % shards < shards
    ∧ (shardedPlayerID v p = vipID ↔ (v % 100 < 95 ∨ p % 200000 = 1)) := by
  refine ⟨?_, Int.emod_nonneg _ (by omega), Int.emod_lt_of_pos _ h, ?_⟩
  · unfold balancedTickKey goIntn
    rw [if_neg (by omega)]
  · unfold shardedPlayerID
    by_cases hv : 95 ≤ v % 100
    · rw [if_pos hv, fmtPlayer_eq_vip_iff _ (by omega)]
      constructor
      · intro hp
        exact Or.inr hp
      · intro hp
        rcases hp with hp | hp
        · omega
        · exact hp
    · simp [hv]
      omega

/-- C2 witness: concrete instance of the amended statement at shardCount 16,
weight draw 3 (VIP), identifier draw 7, shard draw 40. -/
theorem C2_witness :
    balancedTickKey 16 3 7 40 =
      Except.ok (shardedPlayerID 3 7 ++ "#shard=" ++ toString (((40 : Nat) : Int) % 16))
    ∧ 0 ≤ ((40 : Nat) : Int) % 16 ∧ ((40 : Nat) : Int) % 16 < 16
    ∧ (shardedPlayerID 3 7 = vipID ↔ (3 % 100 < 95 ∨ 7 % 200000 = 1)) :=
  C2_amended 16 (by norm_num) 3 7 40

/-- C3: the code contradicts the claim.  When a fatal consume error is
received from the consumeErrors channel, run logs it and returns nil, so main
exits with status 0 — not a non-zero exit as the claim and the spec exit-code
contract require. -/
theorem C3_code_behavior :
    consumerExitCode (WaitEvent.consumeFault "kafka: error while consuming") = 0 := rfl

/-- C4: a zero rate panics in the division time.Second / time.Duration(rate)
and a negative rate makes time.NewTicker panic on a non-positive interval; in
both cases the panic happens during startup, before the go statement spawning
the generation task, and the process exits with the non-zero Go panic status. -/
theorem C4_confirmed (rate : Int) (h : rate ≤ 0) :
    startedGeneration (producerStartup rate) = false
    ∧ startupExit (producerStartup rate) = some goPanicExitCode
    ∧ 0 < goPanicExitCode := by
  unfold producerStartup tickerStart
  by_cases h0 : rate = 0
  · simp [h0, startedGeneration, startupExit, goPanicExitCode]
  · have hdiv : Int.tdiv nanosPerSecond rate ≤ 0 :=
      Int.tdiv_nonpos (by norm_num [nanosPerSecond]) (by omega)
    simp [h0, hdiv, startedGeneration, startupExit, goPanicExitCode]

/-- C4 witness: the startup outcome at rate -3. -/
theorem C4_witness :
    startedGeneration (producerStartup (-3)) = false
    ∧ startupExit (producerStartup (-3)) = some goPanicExitCode
    ∧ 0 < goPanicExitCode := C4_confirmed (-3) (by norm_num)

/-- C5 counterexample: with shards = 0 the balanced producer startup still
reaches the go statement (the shards option is never validated), refuting
fails-fast-before-any-task-starts; the r.Intn(shards) call of the first tick
then panics. -/
theorem C5_counterexample :
    startedGeneration (balancedStartup 400 0) = true
    ∧ balancedTickKey 0 3 1 5 = Except.error GoPanic.intnInvalidArgument :=
  ⟨by decide, rfl⟩

/-- C5 (amended): for any valid rate and shardCount <= 0, the balanced
producer spawns the generation task with no shard-count validation, and every
tick of that task panics at the r.Intn(shards) call, crashing the process with
the non-zero Go panic status at tick time — a partial startup, not a
fail-fast configuration error. -/
theorem C5_amended (rate shards : Int) (hr : 0 < rate) (hr2 : rate ≤ 1000000000)
    (hs : shards ≤ 0) (v p s : Nat) :
    startedGeneration (balancedStartup rate shards) = true
    ∧ balancedTickKey shards v p s = Except.error GoPanic.intnInvalidArgument
    ∧ 0 < goPanicExitCode := by
  refine ⟨?_, ?_, by norm_num [goPanicExitCode]⟩
  · unfold balancedStartup tickerStart
    have hpos : 0 < Int.tdiv nanosPerSecond rate := by
      rcases Int.eq_ofNat_of_zero_le (le_of_lt hr) with ⟨m, rfl⟩
      have hm : 0 < m := by exact_mod_cast hr
      have hm2 : m ≤ 1000000000 := by exact_mod_cast hr2
      have hn : nanosPerSecond = ((1000000000 : Nat) : Int) := by norm_num [nanosPerSecond]
      rw [hn, ← Int.ofNat_tdiv]
      have hq : 1 ≤ 1000000000 / m := (Nat.one_le_div_iff hm).mpr hm2
      exact_mod_cast hq
    rw [if_neg (by omega), if_neg (by omega)]
    rfl
  · unfold balancedTickKey goIntn
    rw [if_pos hs]

/-- C5 witness: concrete instance at rate 400 (the default), shards 0. -/
theorem C5_witness :
    startedGeneration (balancedStartup 400 0) = true
    ∧ balancedTickKey 0 3 1 5 = Except.error GoPanic.intnInvalidArgument
    ∧ 0 < goPanicExitCode := C5_amended 400 0 (by norm_num) (by norm_num) (by norm_num) 3 1 5

/-- C6: trySend is a single total non-blocking operation: when the buffer is
at capacity it returns dropped with the channel state unchanged (the record is
discarded, nothing is queued or retried), and when there is room it returns
accepted with the record appended. -/
theorem C6_confirmed (c : Chan) (m : String × String) :
    (c.cap ≤ c.buf.length → trySend c m = (SendResult.dropped, c))
    ∧ (c.buf.length < c.cap → trySend c m = (SendResult.accepted, Chan.mk c.cap (c.buf ++ [m]))) := by
  constructor <;> intro h <;> unfold trySend
  · rw [if_neg (by omega)]
  · rw [if_pos h]

/-- C6 witness: a full channel of capacity 1 drops and stays unchanged; a
channel with room accepts and appends. -/
theorem C6_witness :
    trySend (Chan.mk 1 [("k", "v")]) ("a", "b") = (SendResult.dropped, Chan.mk 1 [("k", "v")])
    ∧ trySend (Chan.mk 2 [("k", "v")]) ("a", "b")
      = (SendResult.accepted, Chan.mk 2 [("k", "v"), ("a", "b")]) :=
  ⟨(C6_confirmed (Chan.mk 1 [("k", "v")]) ("a", "b")).1 (by decide),
   (C6_confirmed (Chan.mk 2 [("k", "v")]) ("a", "b")).2 (by decide)⟩

/-- The marks of one per-record block are exactly that record's offset. -/
theorem markOffsets_processMsg (w p : Nat) (m : KMsg) :
    markOffsets (processMsg w p m) = [m.offset] := by
  unfold processMsg markOffsets
  by_cases h : m.offset % 500 = 0 <;> simp [h]

/-- ConsumeClaim unfolds one record at a time in stream order. -/
theorem consumeClaim_cons (w p : Nat) (m : KMsg) (rest : List KMsg) :
    consumeClaim w p (m :: rest) = processMsg w p m ++ consumeClaim w p rest := by
  simp [consumeClaim]

/-- markOffsets distributes over trace concatenation. -/
theorem markOffsets_append (a b : List CAction) :
    markOffsets (a ++ b) = markOffsets a ++ markOffsets b := by
  simp [markOffsets]

/-- The acknowledged offsets of a consumption trace are the stream offsets in
stream order. -/
theorem markOffsets_consumeClaim (w p : Nat) (msgs : List KMsg) :
    markOffsets (consumeClaim w p msgs) = msgs.map KMsg.offset := by
  induction msgs with
  | nil => rfl
  | cons m rest ih =>
    rw [consumeClaim_cons, markOffsets_append, markOffsets_processMsg, ih]
    rfl

/-- Every per-record block starts with the simulated work and ends with the
acknowledgment of that record. -/
theorem blockOk_true (w p : Nat) (m : KMsg) : blockOk w p m = true := by
  unfold blockOk processMsg
  by_cases h : m.offset % 500 = 0 <;> simp [h]

/-- C7: when the claim stream arrives in strictly increasing offset order (the
upstream partition guarantee), the loop acknowledges exactly those offsets in
strictly increasing order, and in every per-record block the time.Sleep action
precedes the MarkMessage action, so acknowledgment of a record never occurs
before its simulated work completes. -/
theorem C7_confirmed (w p : Nat) (msgs : List KMsg)
    (hinc : List.Chain' (fun a b : KMsg => a.offset < b.offset) msgs) :
    markOffsets (consumeClaim w p msgs) = msgs.map KMsg.offset
    ∧ List.Chain' (· < ·) (markOffsets (consumeClaim w p msgs))
    ∧ msgs.all (blockOk w p) = true := by
  refine ⟨markOffsets_consumeClaim w p msgs, ?_, ?_⟩
  · rw [markOffsets_consumeClaim]
    exact (List.chain'_map KMsg.offset).mpr hinc
  · exact List.all_eq_true.mpr fun m _ => blockOk_true w p m

/-- C7 witness: a concrete three-record partition stream in increasing offset
order. -/
theorem C7_witness :
    markOffsets (consumeClaim 2 4 [KMsg.mk 498 "a", KMsg.mk 500 "vip", KMsg.mk 603 "b"])
      = List.map KMsg.offset [KMsg.mk 498 "a", KMsg.mk 500 "vip", KMsg.mk 603 "b"]
    ∧ List.Chain' (· < ·)
        (markOffsets (consumeClaim 2 4 [KMsg.mk 498 "a", KMsg.mk 500 "vip", KMsg.mk 603 "b"]))
    ∧ ([KMsg.mk 498 "a", KMsg.mk 500 "vip", KMsg.mk 603 "b"].all (blockOk 2 4)) = true :=
  C7_confirmed 2 4 [KMsg.mk 498 "a", KMsg.mk 500 "vip", KMsg.mk 603 "b"]
    (by simp [List.chain'_cons])

/-- logRecords distributes over trace concatenation. -/
theorem logRecords_append (a b : List CAction) :
    logRecords (a ++ b) = logRecords a ++ logRecords b := by
  simp [logRecords]

/-- C8: the consumption loop emits an observability record capturing
(partition, offset, key) for exactly those records whose offset is divisible
by the sampling interval 500, and no others. -/
theorem C8_confirmed (w p : Nat) (msgs : List KMsg) :
    logRecords (consumeClaim w p msgs)
      = (msgs.filter (fun m => m.offset % 500 == 0)).map (fun m => (p, m.offset, m.key)) := by
  induction msgs with
  | nil => rfl
  | cons m rest ih =>
    rw [consumeClaim_cons, logRecords_append, ih]
    by_cases h : m.offset % 500 = 0
    · simp [processMsg, logRecords, h, List.filter_cons]
    · simp [processMsg, logRecords, h, List.filter_cons]

/-- The serializer realises the spec-side ordered-field rendering of the wire
contract at exactly the field list id, player_id, game_id, event_type, amount,
table_id, ts. -/
theorem eventJSON_spec (ev : GameEvent) : eventJSON ev = renderFieldsSpec (wireFields ev) := by
  simp only [eventJSON, renderFieldsSpec, wireFields, renderFieldSpec, String.intercalate,
    String.intercalate.go, List.map, String.append_assoc]
  rfl

/-- C9: every event built by the factory serializes to the wire payload whose
fields are exactly id, player_id, game_id, event_type, amount, table_id, ts in
that order, and its amount lies in [10, 210). -/
theorem C9_confirmed (i : Nat) (pid : String) (d : Draws) (now : Nat) :
    eventJSON (buildEvent i pid d now) = renderFieldsSpec (wireFields (buildEvent i pid d now))
    ∧ 10 ≤ (buildEvent i pid d now).amount ∧ (buildEvent i pid d now).amount < 210 := by
  refine ⟨eventJSON_spec _, ?_, ?_⟩
  · simp [buildEvent]
  · have := Nat.mod_lt d.amtDraw (show 0 < 200 by norm_num)
    simp [buildEvent]
    omega

/-- The event built at a tick carries the current counter as its id. -/
theorem tickEvent_id (sp i : Nat) (inp : TickInput) : (tickEvent sp i inp).id = i := rfl

/-- The counter is incremented exactly when the non-blocking send is accepted;
after a drop the counter is unchanged, so the next generated event reuses the
dropped id. -/
theorem skewedTick_i (sp : Nat) (st : ProdState) (inp : TickInput) :
    (skewedTick sp st inp).i =
      if sendOutcome sp st inp = SendResult.accepted then st.i + 1 else st.i := by
  unfold skewedTick sendOutcome
  rcases h : trySend (chanDrain st.ch inp.drained)
      ((tickEvent sp st.i inp).playerID, eventJSON (tickEvent sp st.i inp)) with ⟨res, ch2⟩
  cases res <;> simp [h]

/-- One tick preserves the invariant that the accepted records carry ids
0, 1, ..., i-1 where i is the counter. -/
theorem skewedTick_inv (sp : Nat) (st : ProdState) (inp : TickInput)
    (h1 : st.accepted.map GameEvent.id = List.range st.i)
    (h2 : st.i = st.accepted.length) :
    (skewedTick sp st inp).accepted.map GameEvent.id = List.range (skewedTick sp st inp).i
    ∧ (skewedTick sp st inp).i = (skewedTick sp st inp).accepted.length := by
  unfold skewedTick
  rcases h : trySend (chanDrain st.ch inp.drained)
      ((tickEvent sp st.i inp).playerID, eventJSON (tickEvent sp st.i inp)) with ⟨res, ch2⟩
  cases res
  · simp only [h, List.map_append, List.map_cons, List.map_nil, List.length_append,
      List.length_cons, List.length_nil, List.range_succ, tickEvent_id, h1]
    exact ⟨trivial, by omega⟩
  · simp only [h]
    exact ⟨h1, h2⟩

/-- The invariant holds after any run of the generation loop. -/
theorem runProducer_inv (sp : Nat) (inputs : List TickInput) : ∀ st : ProdState,
    st.accepted.map GameEvent.id = List.range st.i → st.i = st.accepted.length →
    (runProducer sp st inputs).accepted.map GameEvent.id
      = List.range (runProducer sp st inputs).i
    ∧ (runProducer sp st inputs).i = (runProducer sp st inputs).accepted.length := by
  induction inputs with
  | nil =>
    intro st h1 h2
    exact ⟨h1, h2⟩
  | cons inp rest ih =>
    intro st h1 h2
    have hstep := skewedTick_inv sp st inp h1 h2
    exact ih (skewedTick sp st inp) hstep.1 hstep.2

/-- C10: across any run, the ids carried by the records the transport accepted
are exactly the consecutive integers 0, 1, 2, ...; the sequence counter equals
the number of accepted records; the counter is incremented only on an accepted
send; and each tick embeds the current counter as the event id, so an id
dropped on backpressure is reused by the next generated event. -/
theorem C10_confirmed (sp cap : Nat) (inputs : List TickInput) :
    (runProducer sp (initState cap) inputs).accepted.map GameEvent.id
      = List.range (runProducer sp (initState cap) inputs).accepted.length
    ∧ (runProducer sp (initState cap) inputs).i
      = (runProducer sp (initState cap) inputs).accepted.length
    ∧ (∀ st inp, (skewedTick sp st inp).i =
        if sendOutcome sp st inp = SendResult.accepted then st.i + 1 else st.i)
    ∧ (∀ i2 inp, (tickEvent sp i2 inp).id = i2) := by
  have hinv := runProducer_inv sp inputs (initState cap) (by rfl) (by rfl)
  refine ⟨?_, hinv.2, fun st inp => skewedTick_i sp st inp, fun i2 inp => tickEvent_id sp i2 inp⟩
  rw [hinv.1, hinv.2]

end KafkaSkew
